import Mathlib

/-!
Shallow embedding of the `rds-monitoring-mcp-server` repository
(awslabs RDS monitoring MCP server) together with proofs about the
properties its specification states.

Python values that the claims touch are modelled with executable Lean
definitions translated from the Python source.  Machine-level details
(logging side effects, the boto3 transport) are not observable in any
claim and are elided; everything a claim's truth depends on is kept.
-/

/-- A JSON value as produced by Python's `json` module on the data this
server serializes (objects keep insertion order, as Python dicts do). -/
inductive Json where
  | null : Json
  | bool : Bool → Json
  | num : Int → Json
  | str : String → Json
  | arr : List Json → Json
  | obj : List (String × Json) → Json
deriving Repr

/-- The opening brace character, written via its code point. -/
def lbrace : Char := Char.ofNat 123

/-- The closing brace character, written via its code point. -/
def rbrace : Char := Char.ofNat 125

/-- Lowercase hexadecimal digit for a value below 16. -/
def hexDigitChar (n : Nat) : Char :=
  if n < 10 then Char.ofNat (48 + n) else Char.ofNat (87 + n)

/-- Four lowercase hex digits, as in a JSON `\uXXXX` escape. -/
def hex4 (n : Nat) : List Char :=
  [hexDigitChar (n / 4096 % 16), hexDigitChar (n / 256 % 16),
   hexDigitChar (n / 16 % 16), hexDigitChar (n % 16)]

/-- Escaping of one character inside a JSON string, as Python
`json.dumps` does with its default `ensure_ascii=True`. -/
def escapeJsonChar (c : Char) : List Char :=
  if c = '"' then ['\\', '"']
  else if c = '\\' then ['\\', '\\']
  else if c = '\n' then ['\\', 'n']
  else if c = '\t' then ['\\', 't']
  else if c = '\r' then ['\\', 'r']
  else if c = Char.ofNat 8 then ['\\', 'b']
  else if c = Char.ofNat 12 then ['\\', 'f']
  else if c.toNat < 32 ∨ c.toNat > 126 then
    if c.toNat < 65536 then '\\' :: 'u' :: hex4 c.toNat
    else
      let v := c.toNat - 65536
      ('\\' :: 'u' :: hex4 (55296 + v / 1024)) ++ ('\\' :: 'u' :: hex4 (56320 + v % 1024))
  else [c]

/-- A JSON-quoted string literal. -/
def quoteJson (s : String) : String :=
  "\"" ++ String.mk (s.toList.flatMap escapeJsonChar) ++ "\""

/-- Indentation produced by `json.dumps(..., indent=2)` at a nesting level. -/
def indentStr (lvl : Nat) : String :=
  String.mk (List.replicate (2 * lvl) ' ')

mutual

/-- Serialization of a JSON value at a nesting level, following
`json.dumps(obj, indent=2)`. -/
def jsonDumpVal : Json → Nat → String
  | .null, _ => "null"
  | .bool b, _ => if b then "true" else "false"
  | .num n, _ => toString n
  | .str s, _ => quoteJson s
  | .arr [], _ => "[]"
  | .arr (x :: xs), lvl =>
      "[\n" ++ indentStr (lvl + 1) ++ jsonDumpVal x (lvl + 1) ++
        jsonDumpArr xs (lvl + 1) ++ "\n" ++ indentStr lvl ++ "]"
  | .obj [], _ => String.mk [lbrace, rbrace]
  | .obj (kv :: kvs), lvl =>
      String.mk [lbrace] ++ "\n" ++ indentStr (lvl + 1) ++ quoteJson kv.1 ++ ": " ++
        jsonDumpVal kv.2 (lvl + 1) ++ jsonDumpObj kvs (lvl + 1) ++ "\n" ++
        indentStr lvl ++ String.mk [rbrace]

/-- Remaining array elements, each preceded by the item separator. -/
def jsonDumpArr : List Json → Nat → String
  | [], _ => ""
  | x :: xs, lvl => ",\n" ++ indentStr lvl ++ jsonDumpVal x lvl ++ jsonDumpArr xs lvl

/-- Remaining object members, each preceded by the item separator. -/
def jsonDumpObj : List (String × Json) → Nat → String
  | [], _ => ""
  | kv :: kvs, lvl =>
      ",\n" ++ indentStr lvl ++ quoteJson kv.1 ++ ": " ++ jsonDumpVal kv.2 lvl ++
        jsonDumpObj kvs lvl

end

/-- `json.dumps(x, indent=2)`. -/
def json_dumps_indent2 (j : Json) : String := jsonDumpVal j 0

/-- First value stored under a key in a JSON object's member list
(Python dict keys are unique, so first match is the value). -/
def jsonLookup (fields : List (String × Json)) (key : String) : Option Json :=
  (fields.find? (fun kv => kv.1 == key)).map (·.2)

/-- A raised Python exception: its class name, its `str()` rendering, and,
when it is a botocore `ClientError`, the `response.Error` code and message. -/
structure PyExc where
  excType : String
  excMessage : String
  clientError : Option (String × String) := none
deriving Repr, DecidableEq

/-- Outcome of evaluating a piece of Python code: a value, or a raised
exception propagating to the caller. -/
abbrev Py (α : Type) := Except PyExc α

/-- `constants.ERROR_AWS_API`. -/
def ERROR_AWS_API : String := "AWS API error: \x7b\x7d"

/-- `constants.ERROR_UNEXPECTED`. -/
def ERROR_UNEXPECTED : String := "Unexpected error: \x7b\x7d"

/-- Scanner for Python `str.format` restricted to the auto-numbered `\x7b\x7d`
replacement fields, which are the only fields occurring in this repository's
templates (no `\x7b0\x7d` indices, no format specs, no doubled-brace escapes);
a template exercising an unsupported form yields a `ValueError`, and a
replacement field with no argument left yields the `IndexError` CPython
raises. -/
def pyFormatGo (args : List String) : List Char → Nat → Py (List Char)
  | [], _ => .ok []
  | c :: rest, idx =>
    if c = lbrace then
      match rest with
      | c2 :: rest2 =>
        if c2 = rbrace then
          match args[idx]? with
          | some a => (pyFormatGo args rest2 (idx + 1)).map (fun t => a.toList ++ t)
          | none =>
              .error ⟨"IndexError",
                "Replacement index " ++ toString idx ++
                  " out of range for positional args tuple", none⟩
        else .error ⟨"ValueError", "unsupported format string", none⟩
      | [] =>
          .error ⟨"ValueError",
            "Single \x27\x7b\x27 encountered in format string", none⟩
    else (pyFormatGo args rest idx).map (fun t => c :: t)

/-- Python `template.format(*args)` for this repository's templates. -/
def pyFormat (template : String) (args : List String) : Py String :=
  (pyFormatGo args template.toList 0).map String.mk

/-- The JSON error object `handle_exceptions` builds in its `ClientError`
branch (`decorators.py`). -/
def clientErrorEnvelope (funcName code emsg : String) : Py Json := do
  let e ← pyFormat ERROR_AWS_API [code]
  pure (.obj [("error", .str e), ("error_code", .str code),
              ("error_message", .str emsg), ("operation", .str funcName)])

/-- The JSON error object `handle_exceptions` builds for any other
exception (`decorators.py`). -/
def genericErrorEnvelope (funcName ty emsg : String) : Py Json := do
  let e ← pyFormat ERROR_UNEXPECTED [emsg]
  pure (.obj [("error", .str e), ("error_type", .str ty),
              ("error_message", .str emsg), ("operation", .str funcName)])

/-- `decorators.handle_exceptions`: the wrapper around an MCP tool or
resource function.  `funcName` is the wrapped function's `__name__` and
`call` the outcome of invoking it; a `ClientError` becomes the structured
AWS error JSON string, any other exception the generic error JSON string,
and a normal return passes through unchanged. -/
def handle_exceptions (funcName : String) (call : Py Json) : Py Json :=
  match call with
  | .ok v => .ok v
  | .error err =>
    match err.clientError with
    | some (code, emsg) => do
        let env ← clientErrorEnvelope funcName code emsg
        pure (.str (json_dumps_indent2 env))
    | none => do
        let env ← genericErrorEnvelope funcName err.excType err.excMessage
        pure (.str (json_dumps_indent2 env))

theorem pyFormat_one_placeholder_suffix (c : String) :
    pyFormat ERROR_AWS_API [c] = .ok ("AWS API error: " ++ c) := by
  simp [pyFormat, ERROR_AWS_API, pyFormatGo, lbrace, rbrace, Except.map]
  rfl

theorem pyFormat_unexpected_suffix (c : String) :
    pyFormat ERROR_UNEXPECTED [c] = .ok ("Unexpected error: " ++ c) := by
  simp [pyFormat, ERROR_UNEXPECTED, pyFormatGo, lbrace, rbrace, Except.map]
  rfl

/-- C1: `handle_exceptions` passes a normal return through unchanged; on a
botocore `ClientError` it returns (rather than raises) the JSON object string
whose `error_code` is the error's `Error.Code`, whose `error_message` is its
`Error.Message`, and whose `operation` is the wrapped function's name; on any
other exception it returns the generic JSON error object whose `error_type`
is the exception's class name and whose `operation` is the function's name;
in particular a `ClientError` with code `AccessDenied` yields
`error_code == "AccessDenied"`. -/
theorem handle_exceptions_error_envelopes
    (funcName code emsg cmsg ty omsg : String) (v : Json) :
    (handle_exceptions funcName (.ok v) = .ok v)
    ∧ (∃ fields,
        handle_exceptions funcName (.error ⟨"ClientError", cmsg, some (code, emsg)⟩) =
          .ok (.str (json_dumps_indent2 (.obj fields)))
        ∧ jsonLookup fields "error_code" = some (.str code)
        ∧ jsonLookup fields "error_message" = some (.str emsg)
        ∧ jsonLookup fields "operation" = some (.str funcName))
    ∧ (∃ fields,
        handle_exceptions funcName (.error ⟨ty, omsg, none⟩) =
          .ok (.str (json_dumps_indent2 (.obj fields)))
        ∧ jsonLookup fields "error_type" = some (.str ty)
        ∧ jsonLookup fields "error_message" = some (.str omsg)
        ∧ jsonLookup fields "operation" = some (.str funcName))
    ∧ (∃ fields,
        handle_exceptions funcName (.error ⟨"ClientError", cmsg, some ("AccessDenied", emsg)⟩) =
          .ok (.str (json_dumps_indent2 (.obj fields)))
        ∧ jsonLookup fields "error_code" = some (.str "AccessDenied")
        ∧ jsonLookup fields "operation" = some (.str funcName)) := by
  refine ⟨rfl, ?_, ?_, ?_⟩
  · refine ⟨[("error", .str ("AWS API error: " ++ code)), ("error_code", .str code),
             ("error_message", .str emsg), ("operation", .str funcName)],
            ?_, rfl, rfl, rfl⟩
    simp [handle_exceptions, clientErrorEnvelope, pyFormat_one_placeholder_suffix]
  · refine ⟨[("error", .str ("Unexpected error: " ++ omsg)), ("error_type", .str ty),
             ("error_message", .str omsg), ("operation", .str funcName)],
            ?_, rfl, rfl, rfl⟩
    simp [handle_exceptions, genericErrorEnvelope, pyFormat_unexpected_suffix]
  · refine ⟨[("error", .str ("AWS API error: " ++ "AccessDenied")),
             ("error_code", .str "AccessDenied"),
             ("error_message", .str emsg), ("operation", .str funcName)],
            ?_, rfl, rfl⟩
    simp [handle_exceptions, clientErrorEnvelope, pyFormat_one_placeholder_suffix]

/-- `page.get(result_key, [])`: the items stored under a result key on one
response page, the empty list when the page misses the key. -/
def pageGet (page : List (String × List α)) (key : String) : List α :=
  ((page.find? (fun kv => kv.1 == key)).map (·.2)).getD []

/-- The per-item transform inside `handle_paginated_aws_api_call`: apply
`format_function` when one is supplied, keep the raw item otherwise. -/
def applyFormat (format_function : Option (α → α)) (item : α) : α :=
  match format_function with
  | some f => f item
  | none => item

/-- The inner `for item in page.get(result_key, [])` loop of
`utils.handle_paginated_aws_api_call`, appending to the running
`results` list one item at a time. -/
def appendPageItems (format_function : Option (α → α)) : List α → List α → List α
  | results, [] => results
  | results, item :: items =>
      appendPageItems format_function (results ++ [applyFormat format_function item]) items

/-- The outer `for page in page_iterator` loop of
`utils.handle_paginated_aws_api_call`. -/
def pageLoop (format_function : Option (α → α)) (result_key : String) :
    List α → List (List (String × List α)) → List α
  | results, [] => results
  | results, page :: pages =>
      pageLoop format_function result_key
        (appendPageItems format_function results (pageGet page result_key)) pages

/-- `utils.handle_paginated_aws_api_call`: `pages` is the sequence of
response pages the boto3 paginator yields (after the pagination config is
installed into the operation parameters); the call walks every page,
collects the list found under `result_key`, and optionally formats each
item. -/
def handle_paginated_aws_api_call (pages : List (List (String × List α)))
    (result_key : String) (format_function : Option (α → α)) : List α :=
  pageLoop format_function result_key [] pages

theorem appendPageItems_eq (fmt : Option (α → α)) (items : List α) :
    ∀ results, appendPageItems fmt results items = results ++ items.map (applyFormat fmt) := by
  induction items with
  | nil => intro results; simp [appendPageItems]
  | cons x xs ih => intro results; simp [appendPageItems, ih]

theorem pageLoop_eq (fmt : Option (α → α)) (key : String)
    (pages : List (List (String × List α))) :
    ∀ results, pageLoop fmt key results pages =
      results ++ pages.flatMap (fun p => (pageGet p key).map (applyFormat fmt)) := by
  induction pages with
  | nil => intro results; simp [pageLoop]
  | cons p ps ih => intro results; simp [pageLoop, appendPageItems_eq, ih]

/-- C2: `handle_paginated_aws_api_call` returns the concatenation, in page
order and in-page order, of the items found under `result_key` on each page
(a page missing the key contributes nothing), with `format_function` applied
to each item when supplied; its length is the sum of the per-page item
counts, and duplicates across pages are preserved (the multiplicity of any
item in the unformatted result is the sum of its per-page multiplicities,
so nothing is deduplicated). -/
theorem handle_paginated_aws_api_call_concat [DecidableEq α]
    (pages : List (List (String × List α))) (key : String)
    (fmt : Option (α → α)) (x : α) :
    (handle_paginated_aws_api_call pages key fmt =
      pages.flatMap (fun p => (pageGet p key).map (applyFormat fmt)))
    ∧ ((handle_paginated_aws_api_call pages key fmt).length =
        (pages.map (fun p => (pageGet p key).length)).sum)
    ∧ ((handle_paginated_aws_api_call pages key (none : Option (α → α))).count x =
        (pages.map (fun p => (pageGet p key).count x)).sum) := by
  have h : ∀ f, handle_paginated_aws_api_call pages key f =
      pages.flatMap (fun p => (pageGet p key).map (applyFormat f)) := by
    intro f
    simpa [handle_paginated_aws_api_call] using pageLoop_eq f key pages []
  refine ⟨h fmt, ?_, ?_⟩
  · rw [h fmt]
    simp [List.length_flatMap, Function.comp_def]
  · rw [h none]
    have hid : applyFormat (none : Option (α → α)) = id := funext fun _ => rfl
    simp [List.count_flatMap, hid, Function.comp_def]

/-- A character at which Python `str.splitlines` breaks a line. -/
def isPyLineBreak (c : Char) : Bool :=
  c = '\n' || c = '\r' || c.toNat = 11 || c.toNat = 12 || c.toNat = 28 ||
    c.toNat = 29 || c.toNat = 30 || c.toNat = 133 || c.toNat = 8232 || c.toNat = 8233

/-- Python `str.splitlines`: split at line boundaries (treating `\r\n` as a
single boundary), with no trailing empty line for a terminal boundary. -/
def pySplitlines : List Char → List (List Char)
  | [] => []
  | '\r' :: '\n' :: rest => [] :: pySplitlines rest
  | c :: rest =>
    if isPyLineBreak c then [] :: pySplitlines rest
    else
      match pySplitlines rest with
      | [] => [[c]]
      | l :: ls => (c :: l) :: ls

/-- Python `pattern in line`: case-sensitive substring containment. -/
def containsSub (pat line : List Char) : Bool :=
  line.tails.any (fun t => pat.isPrefixOf t)

/-- The `for line in log_file_content.splitlines()` loop of
`preprocess_log_content`, appending each line containing the pattern. -/
def filterLinesLoop (pat : List Char) : List (List Char) → List (List Char) → List (List Char)
  | filtered_lines, [] => filtered_lines
  | filtered_lines, line :: lines =>
      if containsSub pat line then filterLinesLoop pat (filtered_lines ++ [line]) lines
      else filterLinesLoop pat filtered_lines lines

/-- `read_rds_db_logs.preprocess_log_content`: with no pattern (or an empty
pattern, or empty content) the content is returned unchanged; otherwise the
newline-join of the lines containing the pattern. -/
def preprocess_log_content (log_file_content : String) (pattern : Option String) : String :=
  if pattern = none ∨ pattern = some "" ∨ log_file_content = "" then log_file_content
  else
    String.mk (List.intercalate ['\n']
      (filterLinesLoop ((pattern.getD "").toList) [] (pySplitlines log_file_content.toList)))

theorem filterLinesLoop_eq (pat : List Char) (lines : List (List Char)) :
    ∀ acc, filterLinesLoop pat acc lines = acc ++ lines.filter (containsSub pat) := by
  induction lines with
  | nil => intro acc; simp [filterLinesLoop]
  | cons l ls ih =>
      intro acc
      by_cases h : containsSub pat l <;> simp [filterLinesLoop, h, ih]

/-- C4: with a non-empty pattern, `preprocess_log_content` returns exactly the
newline-joined subsequence of the input's lines containing the pattern as a
case-sensitive substring, in original order; with no pattern it returns the
input unchanged; and on `"Line 1\nERROR: x\nLine 3"` with pattern `"ERROR"`
the output is exactly `"ERROR: x"`. -/
theorem preprocess_log_content_filters (content : String) (p : String) (hp : p ≠ "") :
    (preprocess_log_content content none = content)
    ∧ (preprocess_log_content content (some p) =
        String.mk (List.intercalate ['\n']
          ((pySplitlines content.toList).filter (containsSub p.toList))))
    ∧ (preprocess_log_content "Line 1\nERROR: x\nLine 3" (some "ERROR") = "ERROR: x") := by
  refine ⟨by simp [preprocess_log_content], ?_, by decide⟩
  by_cases hc : content = ""
  · subst hc
    have h0 : preprocess_log_content "" (some p) = "" := by
      simp [preprocess_log_content]
    rw [h0]; rfl
  · have hguard : ¬(some p = none ∨ some p = some "" ∨ content = "") := by
      simp [hp, hc]
    unfold preprocess_log_content
    rw [if_neg hguard, filterLinesLoop_eq]
    simp

/-- Witness for C4 at pattern `"ERROR"` and a concrete content. -/
theorem preprocess_log_content_filters_witness :
    preprocess_log_content "Line 1\nERROR: x\nLine 3" (some "ERROR") = "ERROR: x" :=
  (preprocess_log_content_filters "Line 1\nERROR: x\nLine 3" "ERROR" (by decide)).2.2

/-- A Python `datetime.datetime`: calendar fields plus an optional fixed
UTC offset in minutes (an aware datetime). -/
structure PyDateTime where
  year : Nat
  month : Nat
  day : Nat
  hour : Nat := 0
  minute : Nat := 0
  second : Nat := 0
  microsecond : Nat := 0
  tzOffsetMinutes : Option Int := none
deriving Repr, DecidableEq

/-- Decimal rendering of a natural number, left-padded with zeros. -/
def padZeros (width : Nat) (n : Nat) : String :=
  let s := toString n
  String.mk (List.replicate (width - s.length) '0') ++ s

/-- `datetime.isoformat()`: `YYYY-MM-DDTHH:MM:SS`, with `.ffffff` only when
the microsecond is nonzero and `+HH:MM`/`-HH:MM` only for aware datetimes. -/
def pyIsoformat (d : PyDateTime) : String :=
  padZeros 4 d.year ++ "-" ++ padZeros 2 d.month ++ "-" ++ padZeros 2 d.day ++ "T" ++
    padZeros 2 d.hour ++ ":" ++ padZeros 2 d.minute ++ ":" ++ padZeros 2 d.second ++
    (if d.microsecond = 0 then "" else "." ++ padZeros 6 d.microsecond) ++
    (match d.tzOffsetMinutes with
     | Option.none => ""
     | some off =>
         (if off < 0 then "-" else "+") ++
           padZeros 2 (off.natAbs / 60) ++ ":" ++ padZeros 2 (off.natAbs % 60))

/-- A Python value of the kind `convert_datetime_to_string` traverses:
datetimes, dicts, lists, and other leaves (strings, ints, bools, None). -/
inductive PyObj where
  | datetime : PyDateTime → PyObj
  | str : String → PyObj
  | int : Int → PyObj
  | bool : Bool → PyObj
  | none : PyObj
  | dict : List (String × PyObj) → PyObj
  | list : List PyObj → PyObj
deriving Repr

mutual

/-- `utils.convert_datetime_to_string`: recursively replace every datetime
with its ISO string; recurse into dicts (by value) and lists; return any
other object unchanged. -/
def convert_datetime_to_string : PyObj → PyObj
  | .datetime d => .str (pyIsoformat d)
  | .dict kvs => .dict (convertDictItems kvs)
  | .list xs => .list (convertListItems xs)
  | x => x

/-- The list comprehension over a list value. -/
def convertListItems : List PyObj → List PyObj
  | [] => []
  | x :: xs => convert_datetime_to_string x :: convertListItems xs

/-- The dict comprehension over a dict's items. -/
def convertDictItems : List (String × PyObj) → List (String × PyObj)
  | [] => []
  | (k, v) :: kvs => (k, convert_datetime_to_string v) :: convertDictItems kvs

end

mutual

/-- Whether a value contains no datetime anywhere. -/
def dtFreeObj : PyObj → Bool
  | .datetime _ => false
  | .dict kvs => dtFreeKVs kvs
  | .list xs => dtFreeList xs
  | _ => true

/-- Whether a list of values contains no datetime anywhere. -/
def dtFreeList : List PyObj → Bool
  | [] => true
  | x :: xs => dtFreeObj x && dtFreeList xs

/-- Whether any dict value contains a datetime anywhere. -/
def dtFreeKVs : List (String × PyObj) → Bool
  | [] => true
  | (_, v) :: kvs => dtFreeObj v && dtFreeKVs kvs

end

/-- The structure of a Python value with leaf contents erased: dict keys and
nesting are kept, every non-container becomes `leaf`. -/
inductive PyShape where
  | leaf : PyShape
  | dict : List (String × PyShape) → PyShape
  | list : List PyShape → PyShape
deriving Repr

mutual

/-- Erase a value to its structure. -/
def shapeObj : PyObj → PyShape
  | .dict kvs => .dict (shapeKVs kvs)
  | .list xs => .list (shapeList xs)
  | _ => .leaf

/-- Erase a list of values to their structures. -/
def shapeList : List PyObj → List PyShape
  | [] => []
  | x :: xs => shapeObj x :: shapeList xs

/-- Erase dict items to their structures. -/
def shapeKVs : List (String × PyObj) → List (String × PyShape)
  | [] => []
  | (k, v) :: kvs => (k, shapeObj v) :: shapeKVs kvs

end

theorem convert_datetime_shape (x : PyObj) :
    shapeObj (convert_datetime_to_string x) = shapeObj x := by
  refine convert_datetime_to_string.induct
    (fun x => shapeObj (convert_datetime_to_string x) = shapeObj x)
    (fun xs => shapeList (convertListItems xs) = shapeList xs)
    (fun kvs => shapeKVs (convertDictItems kvs) = shapeKVs kvs)
    ?_ ?_ ?_ ?_ ?_ ?_ ?_ ?_ x
  · intro d; simp [convert_datetime_to_string, shapeObj]
  · intro kvs ih; simp [convert_datetime_to_string, shapeObj, ih]
  · intro xs ih; simp [convert_datetime_to_string, shapeObj, ih]
  · intro y h1 h2 h3
    cases y <;> simp_all [convert_datetime_to_string]
  · simp [convertDictItems, shapeKVs]
  · intro k v kvs ih1 ih2; simp [convertDictItems, shapeKVs, ih1, ih2]
  · simp [convertListItems, shapeList]
  · intro v xs ih1 ih2; simp [convertListItems, shapeList, ih1, ih2]

theorem convert_datetime_dtFree (x : PyObj) :
    dtFreeObj (convert_datetime_to_string x) = true := by
  refine convert_datetime_to_string.induct
    (fun x => dtFreeObj (convert_datetime_to_string x) = true)
    (fun xs => dtFreeList (convertListItems xs) = true)
    (fun kvs => dtFreeKVs (convertDictItems kvs) = true)
    ?_ ?_ ?_ ?_ ?_ ?_ ?_ ?_ x
  · intro d; simp [convert_datetime_to_string, dtFreeObj]
  · intro kvs ih; simp [convert_datetime_to_string, dtFreeObj, ih]
  · intro xs ih; simp [convert_datetime_to_string, dtFreeObj, ih]
  · intro y h1 h2 h3
    cases y <;> simp_all [convert_datetime_to_string, dtFreeObj]
  · simp [convertDictItems, dtFreeKVs]
  · intro k v kvs ih1 ih2; simp [convertDictItems, dtFreeKVs, ih1, ih2]
  · simp [convertListItems, dtFreeList]
  · intro v xs ih1 ih2; simp [convertListItems, dtFreeList, ih1, ih2]

theorem convert_datetime_id_of_dtFree (x : PyObj) (hx : dtFreeObj x = true) :
    convert_datetime_to_string x = x := by
  refine convert_datetime_to_string.induct
    (fun x => dtFreeObj x = true → convert_datetime_to_string x = x)
    (fun xs => dtFreeList xs = true → convertListItems xs = xs)
    (fun kvs => dtFreeKVs kvs = true → convertDictItems kvs = kvs)
    ?_ ?_ ?_ ?_ ?_ ?_ ?_ ?_ x hx
  · intro d h; simp [dtFreeObj] at h
  · intro kvs ih h
    simp only [dtFreeObj] at h
    simp [convert_datetime_to_string, ih h]
  · intro xs ih h
    simp only [dtFreeObj] at h
    simp [convert_datetime_to_string, ih h]
  · intro y h1 h2 h3 _
    cases y <;> simp_all [convert_datetime_to_string]
  · intro _; rfl
  · intro k v kvs ih1 ih2 h
    simp only [dtFreeKVs, Bool.and_eq_true] at h
    simp [convertDictItems, ih1 h.1, ih2 h.2]
  · intro _; rfl
  · intro v xs ih1 ih2 h
    simp only [dtFreeList, Bool.and_eq_true] at h
    simp [convertListItems, ih1 h.1, ih2 h.2]

/-- C6: `convert_datetime_to_string` preserves the structure of any nested
value (dict keys, list arities, nesting), maps a datetime leaf to its
ISO-8601 string and leaves each other leaf unchanged, produces a
datetime-free result, is the identity on any structure containing no
datetime, and is idempotent on every value. -/
theorem convert_datetime_to_string_spec (x y : PyObj) (d : PyDateTime)
    (hy : dtFreeObj y = true) :
    (shapeObj (convert_datetime_to_string x) = shapeObj x)
    ∧ (convert_datetime_to_string (.datetime d) = .str (pyIsoformat d))
    ∧ (∀ s : String, convert_datetime_to_string (.str s) = .str s)
    ∧ (∀ n : Int, convert_datetime_to_string (.int n) = .int n)
    ∧ (dtFreeObj (convert_datetime_to_string x) = true)
    ∧ (convert_datetime_to_string y = y)
    ∧ (convert_datetime_to_string (convert_datetime_to_string x) =
        convert_datetime_to_string x) :=
  ⟨convert_datetime_shape x, rfl, fun _ => rfl, fun _ => rfl,
   convert_datetime_dtFree x, convert_datetime_id_of_dtFree y hy,
   convert_datetime_id_of_dtFree _ (convert_datetime_dtFree x)⟩

/-- Witness for C6 at a concrete nested structure containing a datetime and
a concrete datetime-free structure. -/
theorem convert_datetime_to_string_spec_witness :
    dtFreeObj (.dict [("a", .int 3), ("b", .list [.str "x"])]) = true
    ∧ (convert_datetime_to_string
        (.dict [("a", .int 3), ("b", .list [.str "x"])]) =
        .dict [("a", .int 3), ("b", .list [.str "x"])]) := by
  have h := convert_datetime_to_string_spec
    (.list [.datetime ⟨2025, 6, 1, 12, 30, 5, 0, Option.none⟩, .int 7])
    (.dict [("a", .int 3), ("b", .list [.str "x"])])
    ⟨2025, 6, 1, 12, 30, 5, 0, Option.none⟩ (by decide)
  exact ⟨by decide, h.2.2.2.2.2.1⟩

/-- `rate_limit.CALLS_PER_PERIOD_LIMIT`. -/
def CALLS_PER_PERIOD_LIMIT : Nat := 3

/-- `rate_limit.PERIOD`, in seconds. -/
def PERIOD : ℚ := 50

/-- Outcome of one pass through the `rate_limiter` wrapper body for one
function name: whether the call was admitted, whether the wrapped function
was invoked, and the deque contents afterwards. -/
structure RateLimitStep where
  admitted : Bool
  invoked : Bool
  state : List ℚ
deriving Repr, DecidableEq

/-- One execution of the `rate_limiter` wrapper body on the deque of one
function name: pop expired timestamps from the left, then either raise
(when the deque is full) or record the current time and invoke the wrapped
function. -/
def rate_limiter_call (call_times : List ℚ) (current_time : ℚ) : RateLimitStep :=
  let purged := call_times.dropWhile (fun t0 => decide (current_time - t0 ≥ PERIOD))
  if CALLS_PER_PERIOD_LIMIT ≤ purged.length then ⟨false, false, purged⟩
  else ⟨true, true, purged ++ [current_time]⟩

/-- The admission flags of a sequence of sequential calls of one function
name through the `rate_limiter` wrapper, threading the deque. -/
def rate_limiter_trace (call_times : List ℚ) : List ℚ → List Bool
  | [] => []
  | t :: ts =>
      let r := rate_limiter_call call_times t
      r.admitted :: rate_limiter_trace r.state ts

/-- Modelled from the spec claim's wording: a call at time `t` is admitted
exactly when fewer than `CALLS_PER_PERIOD_LIMIT` previously admitted calls
have timestamps less than `PERIOD` seconds old at time `t`. -/
def windowAdmits (admitted_times : List ℚ) (t : ℚ) : Bool :=
  decide ((admitted_times.filter (fun t0 => decide (t - t0 < PERIOD))).length <
    CALLS_PER_PERIOD_LIMIT)

/-- Modelled from the spec claim's wording: the admission flags produced by
the windowed-count rule, keeping every admitted timestamp forever. -/
def admittedSpecTrace (admitted_times : List ℚ) : List ℚ → List Bool
  | [] => []
  | t :: ts =>
      if windowAdmits admitted_times t
      then true :: admittedSpecTrace (admitted_times ++ [t]) ts
      else false :: admittedSpecTrace admitted_times ts

theorem dropWhile_expired_eq_filter (t : ℚ) :
    ∀ l : List ℚ, List.Pairwise (· ≤ ·) l →
      l.dropWhile (fun t0 => decide (t - t0 ≥ PERIOD)) =
        l.filter (fun t0 => decide (t - t0 < PERIOD)) := by
  intro l
  induction l with
  | nil => intro _; rfl
  | cons a l ih =>
      intro hp
      rw [List.pairwise_cons] at hp
      by_cases ha : t - a ≥ PERIOD
      · rw [List.dropWhile_cons_of_pos (by simpa using ha),
          List.filter_cons_of_neg (by simpa using not_lt.mpr ha)]
        exact ih hp.2
      · rw [List.dropWhile_cons_of_neg (by simpa using ha),
          List.filter_cons_of_pos (by simpa using lt_of_not_ge ha)]
        congr 1
        refine (List.filter_eq_self.mpr ?_).symm
        intro x hx
        have hax := hp.1 x hx
        have : t - x < PERIOD := lt_of_le_of_lt (by linarith) (lt_of_not_ge ha)
        simpa using this

theorem filter_window_mono (u t : ℚ) (hut : u ≤ t) (l : List ℚ) :
    (l.filter (fun t0 => decide (u - t0 < PERIOD))).filter
        (fun t0 => decide (t - t0 < PERIOD)) =
      l.filter (fun t0 => decide (t - t0 < PERIOD)) := by
  rw [List.filter_filter]
  apply List.filter_congr
  intro x _
  by_cases hx : t - x < PERIOD
  · have : u - x < PERIOD := lt_of_le_of_lt (by linarith) hx
    simp [hx, this]
  · simp [hx]

theorem rate_limiter_trace_eq_aux (ts : List ℚ) :
    ∀ (prev : List ℚ) (u : ℚ), List.Pairwise (· ≤ ·) ts →
      List.Pairwise (· ≤ ·) prev →
      (∀ x ∈ prev, x ≤ u) → (∀ y ∈ ts, u ≤ y) →
      rate_limiter_trace (prev.filter (fun t0 => decide (u - t0 < PERIOD))) ts =
        admittedSpecTrace prev ts := by
  induction ts with
  | nil => intro prev u _ _ _ _; rfl
  | cons t ts ih =>
      intro prev u hts hprev hpu huts
      rw [List.pairwise_cons] at hts
      have hut : u ≤ t := huts t (by simp)
      have hsorted : List.Pairwise (· ≤ ·)
          (prev.filter (fun t0 => decide (u - t0 < PERIOD))) :=
        hprev.filter _
      have hpurge :
          (prev.filter (fun t0 => decide (u - t0 < PERIOD))).dropWhile
              (fun t0 => decide (t - t0 ≥ PERIOD)) =
            prev.filter (fun t0 => decide (t - t0 < PERIOD)) := by
        rw [dropWhile_expired_eq_filter t _ hsorted, filter_window_mono u t hut]
      have hprevt : ∀ x ∈ prev, x ≤ t := fun x hx => le_trans (hpu x hx) hut
      by_cases hadm :
          CALLS_PER_PERIOD_LIMIT ≤
            (prev.filter (fun t0 => decide (t - t0 < PERIOD))).length
      · have hw : windowAdmits prev t = false := by
          simp [windowAdmits, not_lt.mpr hadm]
        rw [rate_limiter_trace, admittedSpecTrace, hw]
        have hstep : rate_limiter_call
            (prev.filter (fun t0 => decide (u - t0 < PERIOD))) t =
            ⟨false, false, prev.filter (fun t0 => decide (t - t0 < PERIOD))⟩ := by
          rw [rate_limiter_call]
          simp only [hpurge]
          rw [if_pos hadm]
        rw [hstep]
        simp only [Bool.false_eq_true, if_false]
        exact congrArg (List.cons false)
          (ih prev t hts.2 hprev hprevt (fun y hy => hts.1 y hy))
      · have hw : windowAdmits prev t = true := by
          simp [windowAdmits, lt_of_not_ge hadm]
        rw [rate_limiter_trace, admittedSpecTrace, hw]
        have hstep : rate_limiter_call
            (prev.filter (fun t0 => decide (u - t0 < PERIOD))) t =
            ⟨true, true, prev.filter (fun t0 => decide (t - t0 < PERIOD)) ++ [t]⟩ := by
          rw [rate_limiter_call]
          simp only [hpurge]
          rw [if_neg hadm]
        rw [hstep]
        simp only [if_true]
        have hnewfilter :
            (prev ++ [t]).filter (fun t0 => decide (t - t0 < PERIOD)) =
              prev.filter (fun t0 => decide (t - t0 < PERIOD)) ++ [t] := by
          rw [List.filter_append]
          congr 1
          simp [PERIOD]
        have hnewprev : List.Pairwise (· ≤ ·) (prev ++ [t]) := by
          rw [List.pairwise_append]
          exact ⟨hprev, by simp, by simpa using hprevt⟩
        have := ih (prev ++ [t]) t hts.2 hnewprev
          (by intro x hx; rcases List.mem_append.mp hx with h | h
              · exact hprevt x h
              · simp at h; simp [h])
          (fun y hy => hts.1 y hy)
        rw [hnewfilter] at this
        exact congrArg (List.cons true) this

/-- C7: for a sequence of sequential (time-ordered) calls of one wrapped
function name, the `rate_limiter` wrapper admits a call at time `t` exactly
when fewer than 3 previously admitted calls of that name have timestamps
less than 50 seconds old at `t`; the wrapped function is invoked exactly on
admitted calls, a rejected call leaves the deque with no new timestamp
recorded (only expired entries removed), and an admitted call records its
timestamp. -/
theorem rate_limiter_windowed_admission (ts : List ℚ)
    (hts : List.Pairwise (· ≤ ·) ts) :
    (rate_limiter_trace [] ts = admittedSpecTrace [] ts)
    ∧ (∀ st t, (rate_limiter_call st t).invoked = (rate_limiter_call st t).admitted)
    ∧ (∀ st t, (rate_limiter_call st t).admitted = false →
        (rate_limiter_call st t).state =
          st.dropWhile (fun t0 => decide (t - t0 ≥ PERIOD)))
    ∧ (∀ st t, (rate_limiter_call st t).admitted = true →
        (rate_limiter_call st t).state =
          st.dropWhile (fun t0 => decide (t - t0 ≥ PERIOD)) ++ [t]) := by
  refine ⟨?_, ?_, ?_, ?_⟩
  · cases ts with
    | nil => rfl
    | cons t ts' =>
        have h := rate_limiter_trace_eq_aux (t :: ts') [] t hts (by simp) (by simp)
          (by intro y hy
              rcases List.mem_cons.mp hy with h | h
              · simp [h]
              · exact (List.pairwise_cons.mp hts).1 y h)
        simpa using h
  · intro st t
    by_cases h : CALLS_PER_PERIOD_LIMIT ≤
        (st.dropWhile (fun t0 => decide (t - t0 ≥ PERIOD))).length <;>
      simp [rate_limiter_call, h]
  · intro st t
    by_cases h : CALLS_PER_PERIOD_LIMIT ≤
        (st.dropWhile (fun t0 => decide (t - t0 ≥ PERIOD))).length <;>
      simp [rate_limiter_call, h]
  · intro st t
    by_cases h : CALLS_PER_PERIOD_LIMIT ≤
        (st.dropWhile (fun t0 => decide (t - t0 ≥ PERIOD))).length <;>
      simp [rate_limiter_call, h]

/-- Witness for C7 on a concrete time-ordered call sequence: three calls are
admitted, the fourth is rejected inside the window, and a later call after
the window has expired is admitted again. -/
theorem rate_limiter_windowed_admission_witness :
    List.Pairwise (· ≤ ·) ([0, 10, 20, 30, 60] : List ℚ)
    ∧ rate_limiter_trace [] ([0, 10, 20, 30, 60] : List ℚ) =
        admittedSpecTrace [] ([0, 10, 20, 30, 60] : List ℚ)
    ∧ rate_limiter_trace [] ([0, 10, 20, 30, 60] : List ℚ) =
        [true, true, true, false, true] :=
  ⟨by norm_num [List.pairwise_cons],
   (rate_limiter_windowed_admission _ (by norm_num [List.pairwise_cons])).1,
   by norm_num [rate_limiter_trace, rate_limiter_call, PERIOD,
     CALLS_PER_PERIOD_LIMIT, List.dropWhile]⟩

/-- Modelled from the spec: the summary record the metric summarizer
produces (spec section 4.2, variant B); the summarizer itself is not
present under `src/`. -/
structure MetricSummary where
  current_value : ℚ
  min_value : ℚ
  max_value : ℚ
  avg_value : ℚ
  trend : String
  change_percent : ℚ
deriving Repr, DecidableEq

/-- Modelled from the spec: the metric summarizer (spec section 4.2,
"Metric Summarizer", variant B) is not present under `src/`; following the
spec's words, it receives parallel timestamp/value arrays, picks the
current value by comparing the first and last timestamp (no sort),
computes min/max/average over all values, classifies the trend from the
percent change between oldest and newest value with a fixed 5 percent
threshold band, rounds nothing here that a claim depends on, and returns a
zero-valued summary with trend `no_data` for an empty series instead of
raising. -/
def summarize_metric (timestamps : List ℚ) (values : List ℚ) : MetricSummary :=
  match timestamps, values with
  | t0 :: ts, v0 :: vs =>
      let tLast := List.getLastD ts t0
      let vLast := List.getLastD vs v0
      let current := if t0 ≤ tLast then vLast else v0
      let oldest := if t0 ≤ tLast then v0 else vLast
      let newest := if t0 ≤ tLast then vLast else v0
      let minv := vs.foldl min v0
      let maxv := vs.foldl max v0
      let avg := (v0 :: vs).sum / (v0 :: vs).length
      let change := if oldest = 0 then 0 else (newest - oldest) / oldest * 100
      let trend :=
        if change > 5 then "increasing"
        else if change < -5 then "decreasing"
        else "stable"
      ⟨current, minv, maxv, avg, trend, change⟩
  | _, _ => ⟨0, 0, 0, 0, "no_data", 0⟩

/-- C3: the metric summarizer returns a zero-valued summary with
`current_value = 0` and `trend = "no_data"` on an empty series instead of
raising, and classifies a two-point time-ordered series whose newest value
exceeds the oldest by more than 5 percent as `trend = "increasing"`. -/
theorem summarize_metric_empty_and_increasing (t0 t1 v0 v1 : ℚ)
    (ht : t0 ≤ t1) (hv0 : 0 < v0) (hinc : (v1 - v0) / v0 * 100 > 5) :
    (summarize_metric [] [] = ⟨0, 0, 0, 0, "no_data", 0⟩)
    ∧ ((summarize_metric [] []).current_value = 0)
    ∧ ((summarize_metric [] []).trend = "no_data")
    ∧ ((summarize_metric [t0, t1] [v0, v1]).trend = "increasing") := by
  refine ⟨rfl, rfl, rfl, ?_⟩
  have h1 : List.getLastD [t1] t0 = t1 := rfl
  have h2 : List.getLastD [v1] v0 = v1 := rfl
  simp only [summarize_metric, h1, h2, if_pos ht]
  rw [if_neg hv0.ne', if_pos hinc]

/-- Witness for C3 at a concrete two-point series doubling in value. -/
theorem summarize_metric_empty_and_increasing_witness :
    ((0 : ℚ) ≤ 1 ∧ (0 : ℚ) < 100 ∧ ((200 : ℚ) - 100) / 100 * 100 > 5)
    ∧ ((summarize_metric [] []).trend = "no_data")
    ∧ ((summarize_metric [(0 : ℚ), 1] [(100 : ℚ), 200]).trend = "increasing") := by
  have h := summarize_metric_empty_and_increasing 0 1 100 200
    (by norm_num) (by norm_num) (by norm_num)
  exact ⟨⟨by norm_num, by norm_num, by norm_num⟩, h.2.2.1, h.2.2.2⟩

/-- Decimal digits to a natural number. -/
def digitsToNat (cs : List Char) : Nat :=
  cs.foldl (fun acc c => acc * 10 + (c.toNat - 48)) 0

/-- Python `str.isdigit` restricted to ASCII digits (the repository only
feeds date strings through it; non-ASCII digit strings end in the same
caught-`ValueError`-or-default outcomes as other unparsable strings). -/
def pyIsdigit (s : String) : Bool :=
  s ≠ "" && s.toList.all Char.isDigit

/-- Python `str.replace` for a single-character pattern (the code only
calls `replace` with the one-character pattern `"Z"`); replaces every
occurrence. -/
def pyReplaceChar (target : Char) (rep : List Char) : List Char → List Char
  | [] => []
  | c :: rest => (if c = target then rep else [c]) ++ pyReplaceChar target rep rest

/-- `s.replace("Z", "+00:00")` as the source calls it. -/
def pyReplaceZ (s : String) : String :=
  String.mk (pyReplaceChar 'Z' "+00:00".toList s.toList)

/-- Day count of a month in the proleptic Gregorian calendar. -/
def daysInMonth (y m : Nat) : Nat :=
  if m = 2 then (if y % 4 = 0 ∧ (y % 100 ≠ 0 ∨ y % 400 = 0) then 29 else 28)
  else if m = 4 ∨ m = 6 ∨ m = 9 ∨ m = 11 then 30
  else 31

/-- The `datetime.datetime` constructor's range validation: the
`ValueError`s CPython raises for out-of-range components. -/
def mkValidDateTime (y m d hh mm ss us : Nat) (tz : Option Int) : Py PyDateTime :=
  if y < 1 ∨ y > 9999 then
    .error ⟨"ValueError", "year " ++ toString y ++ " is out of range", Option.none⟩
  else if m < 1 ∨ m > 12 then
    .error ⟨"ValueError", "month must be in 1..12", Option.none⟩
  else if d < 1 ∨ d > daysInMonth y m then
    .error ⟨"ValueError", "day is out of range for month", Option.none⟩
  else if hh > 23 then
    .error ⟨"ValueError", "hour must be in 0..23", Option.none⟩
  else if mm > 59 then
    .error ⟨"ValueError", "minute must be in 0..59", Option.none⟩
  else if ss > 59 then
    .error ⟨"ValueError", "second must be in 0..59", Option.none⟩
  else .ok ⟨y, m, d, hh, mm, ss, us, tz⟩

/-- The exception `datetime.fromisoformat` raises on a malformed string. -/
def isoValueError (s : String) : PyExc :=
  ⟨"ValueError", "Invalid isoformat string: \x27" ++ s ++ "\x27", Option.none⟩

/-- Split the time-of-day characters from a trailing UTC-offset part
beginning with the first `+` or `-` sign. -/
def splitOffsetSign : List Char → List Char × List Char
  | [] => ([], [])
  | c :: rest =>
      if c = '+' || c = '-' then ([], c :: rest)
      else
        let p := splitOffsetSign rest
        (c :: p.1, p.2)

/-- Parse an ISO `±HH:MM` offset suffix into minutes; `none` on a malformed
suffix; `some Option.none` when there is no offset at all. -/
def parseIsoOffset : List Char → Option (Option Int)
  | [] => some Option.none
  | [sign, o1, o2, ':', o3, o4] =>
      if (sign = '+' || sign = '-') && [o1, o2, o3, o4].all Char.isDigit then
        let mins : Int := (digitsToNat [o1, o2] * 60 + digitsToNat [o3, o4] : Nat)
        some (some (if sign = '-' then -mins else mins))
      else Option.none
  | _ => Option.none

/-- Parse an ISO time-of-day `HH:MM[:SS[.ffffff]]`. -/
def parseIsoTimeCore : List Char → Option (Nat × Nat × Nat × Nat)
  | [h1, h2, ':', m1, m2] =>
      if [h1, h2, m1, m2].all Char.isDigit then
        some (digitsToNat [h1, h2], digitsToNat [m1, m2], 0, 0)
      else Option.none
  | [h1, h2, ':', m1, m2, ':', s1, s2] =>
      if [h1, h2, m1, m2, s1, s2].all Char.isDigit then
        some (digitsToNat [h1, h2], digitsToNat [m1, m2], digitsToNat [s1, s2], 0)
      else Option.none
  | h1 :: h2 :: ':' :: m1 :: m2 :: ':' :: s1 :: s2 :: '.' :: frac =>
      if [h1, h2, m1, m2, s1, s2].all Char.isDigit && frac.all Char.isDigit &&
          frac.length ≥ 1 && frac.length ≤ 6 then
        some (digitsToNat [h1, h2], digitsToNat [m1, m2], digitsToNat [s1, s2],
          digitsToNat frac * 10 ^ (6 - frac.length))
      else Option.none
  | _ => Option.none

/-- `datetime.fromisoformat` on the grammar this repository exercises:
`YYYY-MM-DD`, optionally followed by a `T` or space separator, a time
`HH:MM[:SS[.ffffff]]`, and an optional `±HH:MM` offset; component ranges
are validated as the datetime constructor does. -/
def pyFromisoformat (s : String) : Py PyDateTime :=
  match s.toList with
  | y1 :: y2 :: y3 :: y4 :: c1 :: mo1 :: mo2 :: c2 :: d1 :: d2 :: rest =>
    if [y1, y2, y3, y4, mo1, mo2, d1, d2].all Char.isDigit && c1 = '-' && c2 = '-' then
      match rest with
      | [] =>
          mkValidDateTime (digitsToNat [y1, y2, y3, y4]) (digitsToNat [mo1, mo2])
            (digitsToNat [d1, d2]) 0 0 0 0 Option.none
      | sep :: timecs =>
        if sep = 'T' || sep = ' ' then
          match parseIsoTimeCore (splitOffsetSign timecs).1,
              parseIsoOffset (splitOffsetSign timecs).2 with
          | some (hh, mm, ss, us), some tz =>
              mkValidDateTime (digitsToNat [y1, y2, y3, y4]) (digitsToNat [mo1, mo2])
                (digitsToNat [d1, d2]) hh mm ss us tz
          | _, _ => .error (isoValueError s)
        else .error (isoValueError s)
    else .error (isoValueError s)
  | _ => .error (isoValueError s)

/-- `re.match(r"^\d\x7b4\x7d-\d\x7b2\x7d-\d\x7b2\x7d$", s)` of
`parse_date_string` (ASCII digits). -/
def matchesYMDRegex (cs : List Char) : Bool :=
  match cs with
  | [a1, a2, a3, a4, b1, c1, c2, b2, e1, e2] =>
      [a1, a2, a3, a4, c1, c2, e1, e2].all Char.isDigit && b1 = '-' && b2 = '-'
  | _ => false

/-- `re.match(r"^\d\x7b1,2\x7d/\d\x7b1,2\x7d/\d\x7b4\x7d$", s)` of
`parse_date_string` (ASCII digits). -/
def matchesMDYRegex (cs : List Char) : Bool :=
  match cs.splitOn '/' with
  | [mcs, dcs, ycs] =>
      mcs.all Char.isDigit && dcs.all Char.isDigit && ycs.all Char.isDigit &&
        decide (1 ≤ mcs.length) && decide (mcs.length ≤ 2) &&
        decide (1 ≤ dcs.length) && decide (dcs.length ≤ 2) && decide (ycs.length = 4)
  | _ => false

/-- `datetime.strptime(date_str, "%Y-%m-%d")`, reached only on strings
matching the `YYYY-MM-DD` regex. -/
def pyStrptimeYMD (s : String) : Py PyDateTime :=
  match s.toList.splitOn '-' with
  | [ycs, mcs, dcs] =>
      mkValidDateTime (digitsToNat ycs) (digitsToNat mcs) (digitsToNat dcs) 0 0 0 0 Option.none
  | _ => .error ⟨"ValueError", "time data does not match format", Option.none⟩

/-- `datetime.strptime(date_str, "%m/%d/%Y")`, reached only on strings
matching the `MM/DD/YYYY` regex. -/
def pyStrptimeMDY (s : String) : Py PyDateTime :=
  match s.toList.splitOn '/' with
  | [mcs, dcs, ycs] =>
      mkValidDateTime (digitsToNat ycs) (digitsToNat mcs) (digitsToNat dcs) 0 0 0 0 Option.none
  | _ => .error ⟨"ValueError", "time data does not match format", Option.none⟩

/-- The largest value of a 64-bit signed `time_t`. -/
def TIME_T_MAX : Nat := 9223372036854775807

/-- The largest civil year the C `struct tm` can carry: its `tm_year`
field is an `int` holding the year minus 1900, so `localtime` fails once
the year exceeds `INT_MAX + 1900`. -/
def TM_YEAR_MAX : Nat := 2147485547

/-- Civil date from a day count since 1970-01-01 (Gregorian). -/
def civilFromDays (days : Nat) : Nat × Nat × Nat :=
  let z := days + 719468
  let era := z / 146097
  let doe := z % 146097
  let yoe := (doe - doe / 1460 + doe / 36524 - doe / 146096) / 365
  let y := yoe + era * 400
  let doy := doe - (365 * yoe + yoe / 4 - yoe / 100)
  let mp := (5 * doy + 2) / 153
  let d := doy - (153 * mp + 2) / 5 + 1
  let mo := if mp < 10 then mp + 3 else mp - 9
  (if mo ≤ 2 then y + 1 else y, mo, d)

/-- `datetime.fromtimestamp` on the nonnegative integer timestamps the
`isdigit` branch produces, with the process clock taken as UTC.  Beyond
the 64-bit `time_t` range CPython raises `OverflowError`; within `time_t`
but with a civil year beyond what the C `struct tm` can carry, the C
`localtime` fails and CPython raises `OSError`; neither is caught by
`except ValueError`.  Otherwise the datetime constructor validates the
components, raising `ValueError` for years past 9999. -/
def pyFromtimestamp (ts : Nat) : Py PyDateTime :=
  if TIME_T_MAX < ts then
    .error ⟨"OverflowError", "timestamp out of range for platform time_t", Option.none⟩
  else if TM_YEAR_MAX < (civilFromDays (ts / 86400)).1 then
    .error ⟨"OSError", "[Errno 75] Value too large for defined data type", Option.none⟩
  else
    mkValidDateTime (civilFromDays (ts / 86400)).1 (civilFromDays (ts / 86400)).2.1
      (civilFromDays (ts / 86400)).2.2 (ts % 86400 / 3600) (ts % 86400 % 3600 / 60)
      (ts % 60) 0 Option.none

/-- The `except ValueError` clause of the inner `parse_date_string`
helper: a `ValueError` from the tried branch is re-raised as
`ValueError("Invalid date format ...")`; any other exception propagates. -/
def rewrapValueError (s : String) (r : Py PyDateTime) : Py PyDateTime :=
  match r with
  | .ok d => .ok d
  | .error e =>
      if e.excType = "ValueError" then
        .error ⟨"ValueError",
          "Invalid date format \x27" ++ s ++ "\x27: " ++ e.excMessage, Option.none⟩
      else .error e

/-- The inner `parse_date_string` helper of
`utils.convert_string_to_datetime`: empty or missing strings give the
default; then, in source order, ISO strings ending in `Z` (after replacing
`Z` with `+00:00`), strings containing `T` or `-` (ISO), the `YYYY-MM-DD`
regex, the `MM/DD/YYYY` regex, all-digit Unix timestamps; anything else
falls through to the default. -/
def parse_date_string (default : PyDateTime) (date_str : Option String) : Py PyDateTime :=
  match date_str with
  | Option.none => .ok default
  | some s =>
    if s = "" then .ok default
    else
      rewrapValueError s
        (if "Z".toList.isSuffixOf s.toList then pyFromisoformat (pyReplaceZ s)
         else if s.toList.contains 'T' || s.toList.contains '-' then pyFromisoformat s
         else if matchesYMDRegex s.toList then pyStrptimeYMD s
         else if matchesMDYRegex s.toList then pyStrptimeMDY s
         else if pyIsdigit s then pyFromtimestamp (digitsToNat s.toList)
         else .ok default)

/-- `utils.convert_string_to_datetime`: parse via `parse_date_string`,
catching only `ValueError` (logged, default returned); any other exception
propagates to the caller. -/
def convert_string_to_datetime (default : PyDateTime) (date_string : Option String) :
    Py PyDateTime :=
  match parse_date_string default date_string with
  | .ok d => .ok d
  | .error e => if e.excType = "ValueError" then .ok default else .error e

theorem mkValidDateTime_error_type (y m d hh mm ss us : Nat) (tz : Option Int)
    (e : PyExc) (h : mkValidDateTime y m d hh mm ss us tz = .error e) :
    e.excType = "ValueError" := by
  unfold mkValidDateTime at h
  split_ifs at h
  all_goals first
    | (injection h with h1; subst h1; rfl)
    | injection h

theorem pyFromisoformat_error_type (s : String) (e : PyExc)
    (h : pyFromisoformat s = .error e) : e.excType = "ValueError" := by
  unfold pyFromisoformat at h
  repeat' split at h
  all_goals first
    | exact mkValidDateTime_error_type _ _ _ _ _ _ _ _ e h
    | (injection h with h1; subst h1; rfl)
    | injection h

theorem pyStrptimeYMD_error_type (s : String) (e : PyExc)
    (h : pyStrptimeYMD s = .error e) : e.excType = "ValueError" := by
  unfold pyStrptimeYMD at h
  repeat' split at h
  all_goals first
    | exact mkValidDateTime_error_type _ _ _ _ _ _ _ _ e h
    | (injection h with h1; subst h1; rfl)
    | injection h

theorem pyStrptimeMDY_error_type (s : String) (e : PyExc)
    (h : pyStrptimeMDY s = .error e) : e.excType = "ValueError" := by
  unfold pyStrptimeMDY at h
  repeat' split at h
  all_goals first
    | exact mkValidDateTime_error_type _ _ _ _ _ _ _ _ e h
    | (injection h with h1; subst h1; rfl)
    | injection h

theorem pyFromtimestamp_error_type (ts : Nat) (e : PyExc)
    (h : pyFromtimestamp ts = .error e) :
    e.excType = "ValueError" ∨ e.excType = "OverflowError" ∨ e.excType = "OSError" := by
  unfold pyFromtimestamp at h
  split at h
  · right; left; injection h with h1; subst h1; rfl
  · split at h
    · right; right; injection h with h1; subst h1; rfl
    · left; exact mkValidDateTime_error_type _ _ _ _ _ _ _ _ e h

theorem rewrapValueError_error_type (s : String) (r : Py PyDateTime) (e : PyExc)
    (hr : ∀ e0, r = .error e0 →
      e0.excType = "ValueError" ∨ e0.excType = "OverflowError" ∨ e0.excType = "OSError")
    (h : rewrapValueError s r = .error e) :
    e.excType = "ValueError" ∨ e.excType = "OverflowError" ∨ e.excType = "OSError" := by
  cases r with
  | ok d => exact Except.noConfusion h
  | error e0 =>
      simp only [rewrapValueError] at h
      split_ifs at h
      · left; injection h with h1; subst h1; rfl
      · injection h with h1
        subst h1
        exact hr _ rfl

theorem parse_date_string_error_type (dflt : PyDateTime) (ds : Option String)
    (e : PyExc) (h : parse_date_string dflt ds = .error e) :
    e.excType = "ValueError" ∨ e.excType = "OverflowError" ∨ e.excType = "OSError" := by
  cases ds with
  | none => exact Except.noConfusion h
  | some s =>
      simp only [parse_date_string] at h
      split_ifs at h
      all_goals first
        | exact Except.noConfusion h
        | exact rewrapValueError_error_type s _ e
            (fun e0 he0 => Or.inl (pyFromisoformat_error_type _ _ he0)) h
        | exact rewrapValueError_error_type s _ e
            (fun e0 he0 => Or.inl (pyStrptimeYMD_error_type _ _ he0)) h
        | exact rewrapValueError_error_type s _ e
            (fun e0 he0 => Or.inl (pyStrptimeMDY_error_type _ _ he0)) h
        | exact rewrapValueError_error_type s _ e
            (fun e0 he0 => pyFromtimestamp_error_type _ _ he0) h
        | exact rewrapValueError_error_type s _ e
            (fun e0 he0 => Except.noConfusion he0) h

/-- C10 counterexample: `convert_string_to_datetime` is not total — for an
all-digit timestamp string beyond the 64-bit `time_t` range,
`datetime.fromtimestamp` raises `OverflowError`, which the function's
`except ValueError` clause does not catch, so the call raises instead of
returning the default. -/
theorem convert_string_to_datetime_overflow_counterexample :
    convert_string_to_datetime ⟨2025, 1, 1, 0, 0, 0, 0, Option.none⟩
        (some "18446744073709551616") =
      .error ⟨"OverflowError", "timestamp out of range for platform time_t",
        Option.none⟩ := by
  rfl

/-- C10 (amended): `convert_string_to_datetime` returns the parsed datetime
whenever the inner parser succeeds (supported formats: ISO 8601 with
optional `Z`, `YYYY-MM-DD`, `MM/DD/YYYY`, all-digit Unix timestamps) and
the supplied default whenever the inner parser raises `ValueError` — the
error is caught, contrary to the function's own docstring — or no format
matches; on every input it either returns a datetime or raises only what
`datetime.fromtimestamp` raises past an all-digit timestamp's
representable range — `OverflowError` beyond the platform `time_t`, or
`OSError` when the C `localtime` fails for a year beyond the `struct tm`
range — neither of which `except ValueError` catches. -/
theorem convert_string_to_datetime_spec (dflt d : PyDateTime) (s : String) (e : PyExc) :
    (parse_date_string dflt (some s) = .ok d →
      convert_string_to_datetime dflt (some s) = .ok d)
    ∧ (parse_date_string dflt (some s) = .error e → e.excType = "ValueError" →
        convert_string_to_datetime dflt (some s) = .ok dflt)
    ∧ ((∃ d2, convert_string_to_datetime dflt (some s) = .ok d2)
        ∨ (∃ e2, convert_string_to_datetime dflt (some s) = .error e2
            ∧ (e2.excType = "OverflowError" ∨ e2.excType = "OSError")))
    ∧ (convert_string_to_datetime dflt (some "2024-01-15") =
        .ok ⟨2024, 1, 15, 0, 0, 0, 0, Option.none⟩)
    ∧ (convert_string_to_datetime dflt (some "01/15/2024") =
        .ok ⟨2024, 1, 15, 0, 0, 0, 0, Option.none⟩)
    ∧ (convert_string_to_datetime dflt (some "2025-06-01T00:00:00Z") =
        .ok ⟨2025, 6, 1, 0, 0, 0, 0, some 0⟩)
    ∧ (convert_string_to_datetime dflt (some "1700000000") =
        .ok ⟨2023, 11, 14, 22, 13, 20, 0, Option.none⟩)
    ∧ (convert_string_to_datetime dflt (some "100000000000000000") =
        .error ⟨"OSError", "[Errno 75] Value too large for defined data type",
          Option.none⟩)
    ∧ (convert_string_to_datetime dflt (some "not a date") = .ok dflt)
    ∧ (parse_date_string dflt (some "2024-13-99") =
        .error ⟨"ValueError",
          "Invalid date format \x272024-13-99\x27: month must be in 1..12",
          Option.none⟩)
    ∧ (convert_string_to_datetime dflt (some "2024-13-99") = .ok dflt) := by
  refine ⟨?_, ?_, ?_, rfl, rfl, rfl, rfl, rfl, rfl, rfl, rfl⟩
  · intro hp
    unfold convert_string_to_datetime
    rw [hp]
  · intro hp hty
    unfold convert_string_to_datetime
    rw [hp]
    simp [hty]
  · cases hp : parse_date_string dflt (some s) with
    | ok d2 =>
        exact Or.inl ⟨d2, by unfold convert_string_to_datetime; rw [hp]⟩
    | error e2 =>
        rcases parse_date_string_error_type dflt (some s) e2 hp with hv | hv | hv
        · exact Or.inl ⟨dflt, by unfold convert_string_to_datetime; rw [hp]; simp [hv]⟩
        · refine Or.inr ⟨e2, ?_, Or.inl hv⟩
          unfold convert_string_to_datetime
          rw [hp]
          have : e2.excType ≠ "ValueError" := by rw [hv]; decide
          simp [this]
        · refine Or.inr ⟨e2, ?_, Or.inr hv⟩
          unfold convert_string_to_datetime
          rw [hp]
          have : e2.excType ≠ "ValueError" := by rw [hv]; decide
          simp [this]

/-- Witness for C10 (amended) at the concrete unparseable date
`2024-13-99`: the inner parser raises `ValueError`, which the outer
function catches, returning the supplied default. -/
theorem convert_string_to_datetime_spec_witness :
    (parse_date_string ⟨2020, 1, 1, 0, 0, 0, 0, Option.none⟩ (some "2024-13-99") =
      .error ⟨"ValueError",
        "Invalid date format \x272024-13-99\x27: month must be in 1..12",
        Option.none⟩)
    ∧ convert_string_to_datetime ⟨2020, 1, 1, 0, 0, 0, 0, Option.none⟩
        (some "2024-13-99") = .ok ⟨2020, 1, 1, 0, 0, 0, 0, Option.none⟩ :=
  ⟨rfl,
   (convert_string_to_datetime_spec ⟨2020, 1, 1, 0, 0, 0, 0, Option.none⟩
      ⟨2020, 1, 1, 0, 0, 0, 0, Option.none⟩ "2024-13-99"
      ⟨"ValueError",
        "Invalid date format \x272024-13-99\x27: month must be in 1..12",
        Option.none⟩).2.1 rfl rfl⟩

/-- Modelled from the spec: the singular `MCP_SERVER_TAG` constant imported
by `create_rds_performance_report` belongs to a constants revision that is
not under `src/` (the revision present defines only the list
`MCP_SERVER_TAGS`); shaped like that list's entries, a key/value pair
marking resources created by this server. -/
def MCP_SERVER_TAG : String × String := ("created_by", "rds-monitoring-mcp-server")

/-- `create_rds_performance_report.REPORT_CREATION_SUCCESS_RESPONSE`: the
success template, which contains two positional replacement fields. -/
def REPORT_CREATION_SUCCESS_RESPONSE : String :=
  "Performance analysis report creation has been initiated successfully.\n\nThe report ID is: \x7b\x7d\n\nThis process is asynchronous and will take some time to complete. Once generated,\nyou can access the report details using the Performance Insights dashboard or the aws-rds://db-instance/\x7b\x7d/performance_report resource.\n\nNote: Report generation typically takes a few minutes depending on the time range selected.\n"

/-- The message of the `ValueError` raised by the readonly-mode guard. -/
def READONLY_MODE_MESSAGE : String :=
  "You have configured this tool in readonly mode. To make this change you will have to update your configuration."

/-- `str(report_id)` as interpolated by `str.format`: the
`response.get("AnalysisReportId")` value, or `None` rendered as a
string when the key is absent. -/
def pyStrOfOptionStr : Option String → String
  | Option.none => "None"
  | some s => s

/-- The environment of one `create_rds_performance_report` invocation: the
`Context.readonly_mode()` flag, the two `datetime.now() - timedelta(...)`
default datetimes (their wall-clock values are irrelevant to every claim),
and the Performance Insights `create_performance_analysis_report` call as a
function from the final tag list to the response's `AnalysisReportId` (or
the exception the call raises). -/
structure CreateReportEnv where
  readonly : Bool
  defaultStart : PyDateTime
  defaultEnd : PyDateTime
  apiCall : List (String × String) → Py (Option String)

/-- What one run of the (undecorated) tool body did: its outcome, whether a
Performance Insights client was obtained, and whether the
`create_performance_analysis_report` API call was issued. -/
structure CreateReportRun where
  result : Py Json
  piClientObtained : Bool
  apiCalled : Bool

/-- The body of the `create_rds_performance_report` tool: readonly guard,
date-string conversion, tag merging, the Performance Insights call, then
`REPORT_CREATION_SUCCESS_RESPONSE.format(report_id)`. -/
def create_rds_performance_report (env : CreateReportEnv)
    (dbi_resource_identifier : String) (start_time end_time : Option String)
    (tags : List (List (String × String))) : CreateReportRun :=
  if env.readonly then
    ⟨.error ⟨"ValueError", READONLY_MODE_MESSAGE, Option.none⟩, false, false⟩
  else
    match convert_string_to_datetime env.defaultStart start_time with
    | .error e => ⟨.error e, false, false⟩
    | .ok _start =>
      match convert_string_to_datetime env.defaultEnd end_time with
      | .error e => ⟨.error e, false, false⟩
      | .ok _end =>
        match env.apiCall (MCP_SERVER_TAG :: tags.flatMap (fun tag_item => tag_item)) with
        | .error e => ⟨.error e, true, true⟩
        | .ok reportId =>
          match pyFormat REPORT_CREATION_SUCCESS_RESPONSE [pyStrOfOptionStr reportId] with
          | .error e => ⟨.error e, true, true⟩
          | .ok msg => ⟨.ok (.str msg), true, true⟩

/-- The decorated `CreateRDSPerformanceReport` tool: the body wrapped in
`handle_exceptions` under the function's `__name__`. -/
def create_rds_performance_report_tool (env : CreateReportEnv)
    (dbi_resource_identifier : String) (start_time end_time : Option String)
    (tags : List (List (String × String))) : Py Json :=
  handle_exceptions "create_rds_performance_report"
    (create_rds_performance_report env dbi_resource_identifier start_time end_time tags).result

set_option maxRecDepth 4000 in
theorem report_success_format_raises (x : String) :
    pyFormat REPORT_CREATION_SUCCESS_RESPONSE [x] =
      .error ⟨"IndexError",
        "Replacement index 1 out of range for positional args tuple",
        Option.none⟩ := by
  rfl

/-- C5: in readonly mode `create_rds_performance_report` raises `ValueError`
before any AWS interaction — no Performance Insights client is obtained and
`create_performance_analysis_report` is never invoked — and the surrounding
`handle_exceptions` decorator converts that `ValueError` into the standard
generic JSON error envelope (`error_type = "ValueError"`, `operation =
"create_rds_performance_report"`). -/
theorem create_rds_performance_report_readonly_guard (env : CreateReportEnv)
    (dbi : String) (st et : Option String) (tags : List (List (String × String)))
    (h : env.readonly = true) :
    ((create_rds_performance_report env dbi st et tags).result =
        .error ⟨"ValueError", READONLY_MODE_MESSAGE, Option.none⟩)
    ∧ ((create_rds_performance_report env dbi st et tags).piClientObtained = false)
    ∧ ((create_rds_performance_report env dbi st et tags).apiCalled = false)
    ∧ (∃ fields,
        create_rds_performance_report_tool env dbi st et tags =
          .ok (.str (json_dumps_indent2 (.obj fields)))
        ∧ jsonLookup fields "error_type" = some (.str "ValueError")
        ∧ jsonLookup fields "error_message" = some (.str READONLY_MODE_MESSAGE)
        ∧ jsonLookup fields "operation" =
            some (.str "create_rds_performance_report")) := by
  have hbody : create_rds_performance_report env dbi st et tags =
      ⟨.error ⟨"ValueError", READONLY_MODE_MESSAGE, Option.none⟩, false, false⟩ := by
    unfold create_rds_performance_report
    rw [if_pos (by simp [h])]
  refine ⟨by rw [hbody], by rw [hbody], by rw [hbody], ?_⟩
  refine ⟨[("error", .str ("Unexpected error: " ++ READONLY_MODE_MESSAGE)),
           ("error_type", .str "ValueError"),
           ("error_message", .str READONLY_MODE_MESSAGE),
           ("operation", .str "create_rds_performance_report")],
          ?_, rfl, rfl, rfl⟩
  unfold create_rds_performance_report_tool
  rw [hbody]
  simp [handle_exceptions, genericErrorEnvelope, pyFormat_unexpected_suffix]

/-- Witness for C5 on a concrete readonly environment. -/
theorem create_rds_performance_report_readonly_guard_witness :
    ((CreateReportEnv.mk true ⟨2025, 1, 1, 0, 0, 0, 0, Option.none⟩
        ⟨2025, 1, 4, 0, 0, 0, 0, Option.none⟩
        (fun _ => .ok (some "report-1"))).readonly = true)
    ∧ ((create_rds_performance_report
          (CreateReportEnv.mk true ⟨2025, 1, 1, 0, 0, 0, 0, Option.none⟩
            ⟨2025, 1, 4, 0, 0, 0, 0, Option.none⟩
            (fun _ => .ok (some "report-1")))
          "db-EXAMPLE" Option.none Option.none []).apiCalled = false)
    ∧ ((create_rds_performance_report
          (CreateReportEnv.mk true ⟨2025, 1, 1, 0, 0, 0, 0, Option.none⟩
            ⟨2025, 1, 4, 0, 0, 0, 0, Option.none⟩
            (fun _ => .ok (some "report-1")))
          "db-EXAMPLE" Option.none Option.none []).result =
        .error ⟨"ValueError", READONLY_MODE_MESSAGE, Option.none⟩) :=
  ⟨rfl,
   (create_rds_performance_report_readonly_guard _ "db-EXAMPLE" Option.none
      Option.none [] rfl).2.2.1,
   (create_rds_performance_report_readonly_guard _ "db-EXAMPLE" Option.none
      Option.none [] rfl).1⟩

/-- C9: in non-readonly mode, when the Performance Insights call succeeds
and returns a report id, the final `str.format` applies the success
template's two replacement fields to a single argument and raises
`IndexError`; the decorated tool therefore returns the generic JSON error
envelope with `error_type = "IndexError"` instead of the success message,
even though the report-creation API call has already been issued. -/
theorem create_rds_performance_report_format_bug (env : CreateReportEnv)
    (dbi rid : String) (st et : Option String)
    (tags : List (List (String × String))) (ds de : PyDateTime)
    (h : env.readonly = false)
    (hs : convert_string_to_datetime env.defaultStart st = .ok ds)
    (he : convert_string_to_datetime env.defaultEnd et = .ok de)
    (hapi : env.apiCall (MCP_SERVER_TAG :: tags.flatMap (fun tag_item => tag_item)) =
      .ok (some rid)) :
    ((create_rds_performance_report env dbi st et tags).apiCalled = true)
    ∧ ((create_rds_performance_report env dbi st et tags).result =
        .error ⟨"IndexError",
          "Replacement index 1 out of range for positional args tuple", Option.none⟩)
    ∧ (∃ fields,
        create_rds_performance_report_tool env dbi st et tags =
          .ok (.str (json_dumps_indent2 (.obj fields)))
        ∧ jsonLookup fields "error_type" = some (.str "IndexError")
        ∧ jsonLookup fields "operation" =
            some (.str "create_rds_performance_report")) := by
  have hbody : create_rds_performance_report env dbi st et tags =
      ⟨.error ⟨"IndexError",
          "Replacement index 1 out of range for positional args tuple", Option.none⟩,
        true, true⟩ := by
    unfold create_rds_performance_report
    rw [if_neg (by simp [h])]
    simp only [hs, he, hapi, pyStrOfOptionStr, report_success_format_raises]
  refine ⟨by rw [hbody], by rw [hbody], ?_⟩
  refine ⟨[("error", .str ("Unexpected error: " ++
             "Replacement index 1 out of range for positional args tuple")),
           ("error_type", .str "IndexError"),
           ("error_message", .str
             "Replacement index 1 out of range for positional args tuple"),
           ("operation", .str "create_rds_performance_report")],
          ?_, rfl, rfl⟩
  unfold create_rds_performance_report_tool
  rw [hbody]
  simp [handle_exceptions, genericErrorEnvelope, pyFormat_unexpected_suffix]

/-- Witness for C9 on a concrete non-readonly environment whose
Performance Insights call succeeds with report id `report-1`. -/
theorem create_rds_performance_report_format_bug_witness :
    ((CreateReportEnv.mk false ⟨2025, 1, 1, 0, 0, 0, 0, Option.none⟩
        ⟨2025, 1, 4, 0, 0, 0, 0, Option.none⟩
        (fun _ => .ok (some "report-1"))).readonly = false)
    ∧ ((create_rds_performance_report
          (CreateReportEnv.mk false ⟨2025, 1, 1, 0, 0, 0, 0, Option.none⟩
            ⟨2025, 1, 4, 0, 0, 0, 0, Option.none⟩
            (fun _ => .ok (some "report-1")))
          "db-EXAMPLE" Option.none Option.none []).apiCalled = true)
    ∧ ((create_rds_performance_report
          (CreateReportEnv.mk false ⟨2025, 1, 1, 0, 0, 0, 0, Option.none⟩
            ⟨2025, 1, 4, 0, 0, 0, 0, Option.none⟩
            (fun _ => .ok (some "report-1")))
          "db-EXAMPLE" Option.none Option.none []).result =
        .error ⟨"IndexError",
          "Replacement index 1 out of range for positional args tuple",
          Option.none⟩) :=
  ⟨rfl,
   (create_rds_performance_report_format_bug _ "db-EXAMPLE" "report-1"
      Option.none Option.none [] _ _ rfl rfl rfl rfl).1,
   (create_rds_performance_report_format_bug _ "db-EXAMPLE" "report-1"
      Option.none Option.none [] _ _ rfl rfl rfl rfl).2.1⟩

/-- `get_metric_statistics.MetricDatapoint`: one CloudWatch datapoint as
the Pydantic model declares it (every statistic optional). -/
structure MetricDatapoint where
  Timestamp : PyDateTime
  Average : Option ℚ := Option.none
  Sum : Option ℚ := Option.none
  Maximum : Option ℚ := Option.none
  Minimum : Option ℚ := Option.none
  SampleCount : Option ℚ := Option.none
  DpUnit : Option String := Option.none
  ExtendedStatistics : Option (List (String × ℚ)) := Option.none
deriving Repr, DecidableEq

/-- `get_metric_statistics.MetricStatisticsResult`: the Pydantic model the
tool returns (a label and the datapoints). -/
structure MetricStatisticsResult where
  Label : String
  Datapoints : List MetricDatapoint
deriving Repr, DecidableEq

/-- The CloudWatch `get_metric_statistics` response as the core reads it:
`response.get("Label", ...)` and `response.get("Datapoints", [])`, with the
datapoints already shaped like the model's fields, so the per-item
`MetricDatapoint(**dp)` validation is the identity here. -/
structure GetMetricStatisticsResponse where
  Label : Option String
  Datapoints : Option (List MetricDatapoint)

/-- The environment of one `_get_metric_statistics_core` invocation: the
two `datetime.now()`-based defaults for the date conversions and the
CloudWatch response (the request construction — namespace, dimensions,
statistics, unit — only feeds the call and is elided; the modelled result
is built from the response exactly as in the source). -/
structure MetricToolEnv where
  defaultStart : PyDateTime
  defaultEnd : PyDateTime
  response : GetMetricStatisticsResponse

/-- `_get_metric_statistics_core`: convert the start/end date strings, call
CloudWatch, and build the `MetricStatisticsResult` model from the
response. -/
def get_metric_statistics_core (env : MetricToolEnv)
    (start_time end_time : String) : Py MetricStatisticsResult := do
  let _start ← convert_string_to_datetime env.defaultStart (some start_time)
  let _end ← convert_string_to_datetime env.defaultEnd (some end_time)
  pure ⟨env.response.Label.getD "", env.response.Datapoints.getD []⟩

/-- What an MCP tool hands back to the framework on success: either a JSON
string (as `json.dumps(..., indent=2)` produces) or a Pydantic model
instance left for the framework to serialize. -/
inductive ToolReturn where
  | jsonStr : String → ToolReturn
  | metricModel : MetricStatisticsResult → ToolReturn
deriving Repr, DecidableEq

/-- Whether a tool result is a JSON string. -/
def isJsonStr : ToolReturn → Bool
  | .jsonStr _ => true
  | _ => false

/-- The `GetMetricStatistics` tool: returns the `MetricStatisticsResult`
model produced by the core as-is (no `json.dumps`). -/
def get_metric_statistics (env : MetricToolEnv) (start_time end_time : String) :
    Py ToolReturn :=
  (get_metric_statistics_core env start_time end_time).map .metricModel

/-- The RDS `download_db_log_file_portion` response as the tool reads it. -/
structure DownloadLogPortionResponse where
  LogFileData : Option String
  NextToken : Option String
  AdditionalDataPending : Option Bool
deriving Repr, DecidableEq

/-- `read_rds_db_logs.DBLogFileResponse`: the Pydantic model of the tool's
payload, in declaration order (`model_dump` preserves it). -/
structure DBLogFileResponse where
  log_content : String
  next_marker : Option String
  additional_data_pending : Bool
deriving Repr, DecidableEq

/-- An optional string as JSON (`None` serializes to `null`). -/
def jsonOfOptStr : Option String → Json
  | Option.none => .null
  | some s => .str s

/-- The `ReadDBLogFiles` tool body after the
`download_db_log_file_portion` call: filter the log content, build the
`DBLogFileResponse` model, `model_dump` it and return
`json.dumps(..., indent=2)` (the marker/number-of-lines defaulting only
shapes the request and is elided since the response is an input). -/
def read_rds_db_logs (resp : DownloadLogPortionResponse)
    (pattern : Option String) : Py ToolReturn :=
  .ok (.jsonStr (json_dumps_indent2 (.obj
    [("log_content", .str (preprocess_log_content (resp.LogFileData.getD "") pattern)),
     ("next_marker", jsonOfOptStr resp.NextToken),
     ("additional_data_pending", .bool (resp.AdditionalDataPending.getD false))])))

/-- C8 counterexample: on a concrete successful invocation, the
`GetMetricStatistics` tool's result is a `MetricStatisticsResult` model
instance, not a JSON string — so it is not the case that every tool's
successful result is a JSON string serialized with `indent=2`. -/
theorem get_metric_statistics_not_json_counterexample :
    (get_metric_statistics
        ⟨⟨2025, 1, 1, 0, 0, 0, 0, Option.none⟩, ⟨2025, 1, 2, 0, 0, 0, 0, Option.none⟩,
         ⟨some "CPUUtilization", some [⟨⟨2025, 1, 1, 12, 0, 0, 0, Option.none⟩,
            some 41, Option.none, Option.none, Option.none, Option.none,
            some "Percent", Option.none⟩]⟩⟩
        "2025-01-01" "2025-01-02").map isJsonStr = .ok false := by
  rfl

/-- C8 (amended): `ReadDBLogFiles` returns its successful result as a JSON
string serialized with `indent=2`, but `GetMetricStatistics` does not — on
any invocation whose date conversions succeed it returns the
`MetricStatisticsResult` Pydantic model instance built from the response,
which the MCP framework serializes, not a JSON string of its own. -/
theorem tool_return_forms (resp : DownloadLogPortionResponse)
    (pattern : Option String) (env : MetricToolEnv)
    (start_time end_time : String) (ds de : PyDateTime)
    (hs : convert_string_to_datetime env.defaultStart (some start_time) = .ok ds)
    (he : convert_string_to_datetime env.defaultEnd (some end_time) = .ok de) :
    (read_rds_db_logs resp pattern = .ok (.jsonStr (json_dumps_indent2 (.obj
      [("log_content",
        .str (preprocess_log_content (resp.LogFileData.getD "") pattern)),
       ("next_marker", jsonOfOptStr resp.NextToken),
       ("additional_data_pending", .bool (resp.AdditionalDataPending.getD false))]))))
    ∧ (∀ r, read_rds_db_logs resp pattern = .ok r → isJsonStr r = true)
    ∧ (get_metric_statistics env start_time end_time =
        .ok (.metricModel ⟨env.response.Label.getD "", env.response.Datapoints.getD []⟩))
    ∧ (∀ r, get_metric_statistics env start_time end_time = .ok r →
        isJsonStr r = false) := by
  have hcore : get_metric_statistics_core env start_time end_time =
      .ok ⟨env.response.Label.getD "", env.response.Datapoints.getD []⟩ := by
    unfold get_metric_statistics_core
    rw [hs, he]
    rfl
  have htool : get_metric_statistics env start_time end_time =
      .ok (.metricModel ⟨env.response.Label.getD "", env.response.Datapoints.getD []⟩) := by
    unfold get_metric_statistics
    rw [hcore]
    rfl
  refine ⟨rfl, ?_, htool, ?_⟩
  · intro r hr
    injection hr with h1
    subst h1
    rfl
  · intro r hr
    rw [htool] at hr
    injection hr with h1
    subst h1
    rfl

/-- Witness for C8 (amended) at a concrete response and valid dates. -/
theorem tool_return_forms_witness :
    (convert_string_to_datetime ⟨2025, 1, 1, 0, 0, 0, 0, Option.none⟩
        (some "2025-01-01") = .ok ⟨2025, 1, 1, 0, 0, 0, 0, Option.none⟩)
    ∧ (get_metric_statistics
        ⟨⟨2025, 1, 1, 0, 0, 0, 0, Option.none⟩, ⟨2025, 1, 2, 0, 0, 0, 0, Option.none⟩,
         ⟨some "CPUUtilization", some []⟩⟩ "2025-01-01" "2025-01-02" =
        .ok (.metricModel ⟨"CPUUtilization", []⟩))
    ∧ (read_rds_db_logs ⟨some "a\nb", Option.none, some true⟩ Option.none =
        .ok (.jsonStr (json_dumps_indent2 (.obj
          [("log_content", .str "a\nb"), ("next_marker", .null),
           ("additional_data_pending", .bool true)])))) :=
  ⟨rfl,
   (tool_return_forms ⟨some "a\nb", Option.none, some true⟩ Option.none
      ⟨⟨2025, 1, 1, 0, 0, 0, 0, Option.none⟩, ⟨2025, 1, 2, 0, 0, 0, 0, Option.none⟩,
       ⟨some "CPUUtilization", some []⟩⟩ "2025-01-01" "2025-01-02"
      ⟨2025, 1, 1, 0, 0, 0, 0, Option.none⟩ ⟨2025, 1, 2, 0, 0, 0, 0, Option.none⟩
      rfl rfl).2.2.1,
   (tool_return_forms ⟨some "a\nb", Option.none, some true⟩ Option.none
      ⟨⟨2025, 1, 1, 0, 0, 0, 0, Option.none⟩, ⟨2025, 1, 2, 0, 0, 0, 0, Option.none⟩,
       ⟨some "CPUUtilization", some []⟩⟩ "2025-01-01" "2025-01-02"
      ⟨2025, 1, 1, 0, 0, 0, 0, Option.none⟩ ⟨2025, 1, 2, 0, 0, 0, 0, Option.none⟩
      rfl rfl).1⟩
